import Mathlib

/-!
Shallow embedding of `src/w3_login/app.py`, an OAuth2 authorization-code
relay built on Flask.  Each route handler becomes a pure Lean function.
The HTTP response the provider would return to the handler's outbound POST
is passed in as a value; the handler returns the browser-facing response,
the resulting session, and the list of outbound POSTs it performed.
-/

/-- Static client id, `CLIENT_ID` in `app.py`. -/
def CLIENT_ID : String := "airview_login"

/-- Static client secret, `CLIENT_SECRET` in `app.py`. -/
def CLIENT_SECRET : String := "airview_admin"

/-- Userinfo endpoint, `USERINFO_URL` in `app.py`. -/
def USERINFO_URL : String := "https://uniportal.huawei.com/saaslogin1/oauth2/userinfo"

/-- Code-exchange endpoint, `ACCESS_TOKEN_URL` in `app.py`. -/
def ACCESS_TOKEN_URL : String := "https://uniportal.huawei.com/saaslogin1/oauth2/accesstoken"

/-- Refresh endpoint, `REFRESH_TOKEN_URL` in `app.py`. -/
def REFRESH_TOKEN_URL : String := "https://uniportal.huawei.com/saaslogin1/oauth2/refreshtoken"

/-- Provider authorize endpoint, `AUTHORIZE_URL` in `app.py`. -/
def AUTHORIZE_URL : String := "https://uniportal.huawei.com/saaslogin1/oauth2/authorize"

/-- OAuth scope, `SCOPE` in `app.py`. -/
def SCOPE : String := "base.profile"

/-- Registered redirect URI, `REDIRECT_URI` in `app.py`. -/
def REDIRECT_URI : String := "https://airview.rnd.huawei.com/authorize"

/-- The per-browser Flask session: the two keys the handlers read and
write.  A key that was never written, or was written the Python value
`None` (as `session[k] = d.get(k)` does when `k` is absent from `d`),
reads back as falsy `None`; both are `none` here. -/
structure Session where
  access_token : Option String
  refresh_token : Option String
deriving Repr, DecidableEq

/-- A provider HTTP response as the handlers consume it: `resp.status_code`,
`resp.text`, and the parsed JSON body `resp.json()` modelled as an
association list of string keys to string values (the handlers only ever
look up string-valued fields). -/
structure ProviderResponse where
  status_code : Nat
  text : String
  json : List (String × String)
deriving Repr, DecidableEq

/-- An outbound `requests.post` performed by a handler: target URL and the
JSON body's key/value pairs, in source order. -/
structure HttpPost where
  url : String
  body : List (String × String)
deriving Repr, DecidableEq

/-- The browser-facing result of a handler. -/
inductive Response where
  /-- `redirect(...)`: target base URL plus query parameters. -/
  | redirect (base : String) (query : List (String × String))
  /-- `return text, status`: Flask plain-text response with a status code. -/
  | plainText (status : Nat) (body : String)
  /-- `render_template('refresh_result.html', message=..., success=...)`. -/
  | renderRefreshResult (message : String) (success : Bool)
  /-- `render_template('profile.html', userinfo=...)`. -/
  | renderProfile (userinfo : List (String × String))
deriving Repr, DecidableEq

/-- Dictionary lookup on a parsed JSON body: `d.get(k)` / `k in d`. -/
def jsonGet (j : List (String × String)) (k : String) : Option String :=
  (j.find? (fun kv => kv.1 == k)).map (fun kv => kv.2)

/-- Python `str` of a parsed JSON dict of strings, as an f-string such as
`f"获取令牌失败: \x7btoken\x7d"` renders it. -/
def pyStr (j : List (String × String)) : String :=
  "\x7b" ++
    String.intercalate ", "
      (j.map (fun kv => "\x27" ++ kv.1 ++ "\x27: \x27" ++ kv.2 ++ "\x27"))
    ++ "\x7d"

/-- Modelled from the spec: `oauth.w3.authorize_redirect(REDIRECT_URI)`
calls into the external authlib library, whose code is not part of this
repository.  Per the spec, Authorization Initiation redirects to the
provider's authorize URL with `client_id`, `redirect_uri` and `scope`, and
"No state/nonce/PKCE parameter is generated". -/
def authorize_redirect_query : List (String × String) :=
  [("client_id", CLIENT_ID), ("redirect_uri", REDIRECT_URI), ("scope", SCOPE)]

/-- The `/authorize` handler (`authorize` in `app.py`).  `code` is
`request.args.get('code')`; Python truthiness makes both a missing and an
empty `code` take the initiation branch.  `resp` is the response the token
endpoint would give to the handler's POST. -/
def authorize (code : Option String) (resp : ProviderResponse) (s : Session) :
    Response × Session × List HttpPost :=
  match code with
  | none => (Response.redirect AUTHORIZE_URL authorize_redirect_query, s, [])
  | some c =>
    if c = "" then
      (Response.redirect AUTHORIZE_URL authorize_redirect_query, s, [])
    else
      let data : List (String × String) :=
        [("client_id", CLIENT_ID), ("client_secret", CLIENT_SECRET),
         ("redirect_uri", REDIRECT_URI), ("grant_type", "authorization_code"),
         ("code", c)]
      let calls := [HttpPost.mk ACCESS_TOKEN_URL data]
      if resp.status_code ≠ 200 then
        (Response.plainText 400 ("获取令牌失败: " ++ resp.text), s, calls)
      else
        match jsonGet resp.json "access_token" with
        | none =>
          (Response.plainText 400 ("获取令牌失败: " ++ pyStr resp.json), s, calls)
        | some tok =>
          (Response.redirect "/welcome" [],
           { access_token := some tok,
             refresh_token := jsonGet resp.json "refresh_token" },
           calls)

/-- The `/profile` handler (`profile` in `app.py`).  `resp` is the
response the userinfo endpoint would give to the handler's POST. -/
def profile (s : Session) (resp : ProviderResponse) :
    Response × Session × List HttpPost :=
  match s.access_token with
  | none => (Response.redirect "/" [], s, [])
  | some a =>
    if a = "" then
      (Response.redirect "/" [], s, [])
    else
      let payload : List (String × String) :=
        [("client_id", CLIENT_ID), ("access_token", a), ("scope", SCOPE)]
      let calls := [HttpPost.mk USERINFO_URL payload]
      if resp.status_code ≠ 200 then
        (Response.plainText 400 ("获取用户信息失败: " ++ resp.text), s, calls)
      else
        (Response.renderProfile resp.json, s, calls)

/-- The `/refresh` handler (`refresh_token` in `app.py`).  `resp` is the
response the refresh endpoint would give to the handler's POST.  Note the
source reads `resp.json()` without ever inspecting `resp.status_code`. -/
def refresh_token (s : Session) (resp : ProviderResponse) :
    Response × Session × List HttpPost :=
  match s.refresh_token with
  | none => (Response.renderRefreshResult "没有 refresh_token" false, s, [])
  | some rt =>
    if rt = "" then
      (Response.renderRefreshResult "没有 refresh_token" false, s, [])
    else
      let payload : List (String × String) :=
        [("client_id", CLIENT_ID), ("grant_type", "refresh_token"),
         ("refresh_token", rt)]
      let calls := [HttpPost.mk REFRESH_TOKEN_URL payload]
      match jsonGet resp.json "access_token" with
      | some tok =>
        (Response.renderRefreshResult ("刷新成功! 新 access_token: " ++ tok) true,
         { access_token := some tok,
           refresh_token := jsonGet resp.json "refresh_token" },
         calls)
      | none =>
        (Response.renderRefreshResult ("刷新失败: " ++ pyStr resp.json) false,
         s, calls)

/-- Recognises a plain-text HTTP 400 response. -/
def Response.isPlainText400 : Response → Bool
  | Response.plainText 400 _ => true
  | _ => false

/-- C1: for every `/authorize` request with a valid (nonempty) `code`, the
handler performs exactly one POST to the token endpoint whose body carries
`client_id`, `client_secret`, `redirect_uri`, `code` and
`grant_type=authorization_code`; and whenever the provider answers 200
with a JSON body containing `access_token`, the session tokens are set
from that body and the browser is redirected to `/welcome`. -/
theorem authorize_code_exchange (c : String) (hc : c ≠ "")
    (resp : ProviderResponse) (s : Session) :
    (authorize (some c) resp s).2.2 =
      [HttpPost.mk ACCESS_TOKEN_URL
        [("client_id", CLIENT_ID), ("client_secret", CLIENT_SECRET),
         ("redirect_uri", REDIRECT_URI), ("grant_type", "authorization_code"),
         ("code", c)]] ∧
    (∀ tok, resp.status_code = 200 → jsonGet resp.json "access_token" = some tok →
      (authorize (some c) resp s).1 = Response.redirect "/welcome" [] ∧
      (authorize (some c) resp s).2.1 =
        { access_token := some tok,
          refresh_token := jsonGet resp.json "refresh_token" }) := by
  unfold authorize
  simp only [hc, if_false]
  refine ⟨?_, ?_⟩
  · split <;> [rfl; (split <;> rfl)]
  · intro tok h200 htok
    simp [h200, htok]

/-- C1 witness. -/
theorem authorize_code_exchange_witness :
    (authorize (some "abc")
        (ProviderResponse.mk 200 "ok" [("access_token", "T"), ("refresh_token", "R")])
        (Session.mk none none)).2.2 =
      [HttpPost.mk ACCESS_TOKEN_URL
        [("client_id", CLIENT_ID), ("client_secret", CLIENT_SECRET),
         ("redirect_uri", REDIRECT_URI), ("grant_type", "authorization_code"),
         ("code", "abc")]] ∧
    (authorize (some "abc")
        (ProviderResponse.mk 200 "ok" [("access_token", "T"), ("refresh_token", "R")])
        (Session.mk none none)).1 = Response.redirect "/welcome" [] ∧
    (authorize (some "abc")
        (ProviderResponse.mk 200 "ok" [("access_token", "T"), ("refresh_token", "R")])
        (Session.mk none none)).2.1 = Session.mk (some "T") (some "R") := by
  have h := authorize_code_exchange "abc" (by decide)
    (ProviderResponse.mk 200 "ok" [("access_token", "T"), ("refresh_token", "R")])
    (Session.mk none none)
  exact ⟨h.1, (h.2 "T" rfl rfl).1, by rw [(h.2 "T" rfl rfl).2]; rfl⟩

/-- C2: for every `/authorize` request with a (nonempty) `code`, if the
token endpoint answers non-200 the browser gets a plain-text HTTP 400
carrying the upstream body `resp.text`; if it answers 200 without an
`access_token` field the browser gets a plain-text HTTP 400 carrying the
parsed upstream body; in either failure case the session is unchanged. -/
theorem authorize_failure_400 (c : String) (hc : c ≠ "")
    (resp : ProviderResponse) (s : Session)
    (hfail : resp.status_code ≠ 200 ∨ jsonGet resp.json "access_token" = none) :
    (resp.status_code ≠ 200 →
      (authorize (some c) resp s).1 =
        Response.plainText 400 ("获取令牌失败: " ++ resp.text)) ∧
    (resp.status_code = 200 → jsonGet resp.json "access_token" = none →
      (authorize (some c) resp s).1 =
        Response.plainText 400 ("获取令牌失败: " ++ pyStr resp.json)) ∧
    (authorize (some c) resp s).2.1 = s := by
  unfold authorize
  simp only [hc, if_false]
  refine ⟨fun h => by simp [h], fun h200 hmiss => by simp [h200, hmiss], ?_⟩
  rcases hfail with h | h
  · simp [h]
  · by_cases h200 : resp.status_code = 200 <;> simp [h200, h]

/-- C2 witness. -/
theorem authorize_failure_400_witness :
    (authorize (some "abc") (ProviderResponse.mk 200 "nope" [("error", "bad_code")])
        (Session.mk (some "A") (some "R"))).1 =
      Response.plainText 400 ("获取令牌失败: " ++ pyStr [("error", "bad_code")]) ∧
    (authorize (some "abc") (ProviderResponse.mk 200 "nope" [("error", "bad_code")])
        (Session.mk (some "A") (some "R"))).2.1 = Session.mk (some "A") (some "R") := by
  have h := authorize_failure_400 "abc" (by decide)
    (ProviderResponse.mk 200 "nope" [("error", "bad_code")])
    (Session.mk (some "A") (some "R")) (Or.inr rfl)
  exact ⟨h.2.1 rfl rfl, h.2.2⟩

/-- C3: every `/authorize` request without a `code` parameter is answered
by a redirect to the provider authorize URL whose query contains the
configured `client_id` and `redirect_uri`, and no outbound call is made. -/
theorem authorize_no_code_redirect (resp : ProviderResponse) (s : Session) :
    authorize none resp s =
      (Response.redirect AUTHORIZE_URL authorize_redirect_query, s, []) ∧
    ("client_id", CLIENT_ID) ∈ authorize_redirect_query ∧
    ("redirect_uri", REDIRECT_URI) ∈ authorize_redirect_query := by
  exact ⟨rfl, by decide, by decide⟩

/-- C4: the redirect issued for a `/authorize` request without a `code`
carries no `state`, `nonce` or PKCE (`code_challenge`) query parameter. -/
theorem authorize_no_code_no_state (resp : ProviderResponse) (s : Session) :
    (authorize none resp s).1 =
      Response.redirect AUTHORIZE_URL authorize_redirect_query ∧
    ∀ p ∈ authorize_redirect_query,
      p.1 ≠ "state" ∧ p.1 ≠ "nonce" ∧
      p.1 ≠ "code_challenge" ∧ p.1 ≠ "code_challenge_method" := by
  exact ⟨rfl, by decide⟩

/-- C5: every `/profile` request from a session without an `access_token`
is answered by a redirect to `/`, with no outbound call and the session
unchanged. -/
theorem profile_no_token_redirects (rt : Option String) (resp : ProviderResponse) :
    profile (Session.mk none rt) resp =
      (Response.redirect "/" [], Session.mk none rt, []) := by
  rfl

/-- C6: for every `/profile` request from a session holding a (nonempty)
`access_token`, a non-200 userinfo response yields a plain-text HTTP 400
carrying the upstream body, and the single outbound call targets the
userinfo endpoint — in particular the refresh endpoint is never called. -/
theorem profile_upstream_error_400 (s : Session) (a : String)
    (ha : s.access_token = some a) (hne : a ≠ "")
    (resp : ProviderResponse) (hst : resp.status_code ≠ 200) :
    (profile s resp).1 =
      Response.plainText 400 ("获取用户信息失败: " ++ resp.text) ∧
    (∀ call ∈ (profile s resp).2.2,
      call.url = USERINFO_URL ∧ call.url ≠ REFRESH_TOKEN_URL) := by
  unfold profile
  rw [ha]
  simp only [hne, if_false, hst, if_true, ne_eq, not_false_iff, ite_true]
  refine ⟨by simp [hst], ?_⟩
  intro call hcall
  simp only [List.mem_singleton] at hcall
  subst hcall
  have hu : USERINFO_URL ≠ REFRESH_TOKEN_URL := by decide
  exact ⟨rfl, fun h => hu h⟩

/-- C6 witness. -/
theorem profile_upstream_error_400_witness :
    (profile (Session.mk (some "A") none) (ProviderResponse.mk 401 "expired" [])).1 =
      Response.plainText 400 ("获取用户信息失败: " ++ "expired") ∧
    (∀ call ∈ (profile (Session.mk (some "A") none)
        (ProviderResponse.mk 401 "expired" [])).2.2,
      call.url = USERINFO_URL ∧ call.url ≠ REFRESH_TOKEN_URL) :=
  profile_upstream_error_400 (Session.mk (some "A") none) "A" rfl (by decide)
    (ProviderResponse.mk 401 "expired" []) (by decide)

/-- C7: every `/refresh` request from a session without a `refresh_token`
renders the failure message, makes no outbound call, and leaves the
session unchanged. -/
theorem refresh_no_token_fails (a : Option String) (resp : ProviderResponse) :
    refresh_token (Session.mk a none) resp =
      (Response.renderRefreshResult "没有 refresh_token" false,
       Session.mk a none, []) := by
  rfl

/-- C8: for every `/refresh` request from a session holding a (nonempty)
`refresh_token`, when the provider body contains `access_token` both
session tokens are overwritten from that body and the rendered success
message contains the new `access_token` value verbatim. -/
theorem refresh_success_overwrites (s : Session) (rt : String)
    (hrt : s.refresh_token = some rt) (hne : rt ≠ "")
    (resp : ProviderResponse) (tok : String)
    (htok : jsonGet resp.json "access_token" = some tok) :
    (refresh_token s resp).1 =
      Response.renderRefreshResult ("刷新成功! 新 access_token: " ++ tok) true ∧
    (refresh_token s resp).2.1 =
      { access_token := some tok,
        refresh_token := jsonGet resp.json "refresh_token" } := by
  unfold refresh_token
  rw [hrt]
  simp [hne, htok]

/-- C8 witness. -/
theorem refresh_success_overwrites_witness :
    (refresh_token (Session.mk (some "A") (some "R"))
        (ProviderResponse.mk 200 "ok"
          [("access_token", "T2"), ("refresh_token", "R2")])).1 =
      Response.renderRefreshResult ("刷新成功! 新 access_token: " ++ "T2") true ∧
    (refresh_token (Session.mk (some "A") (some "R"))
        (ProviderResponse.mk 200 "ok"
          [("access_token", "T2"), ("refresh_token", "R2")])).2.1 =
      Session.mk (some "T2") (some "R2") := by
  have h := refresh_success_overwrites (Session.mk (some "A") (some "R")) "R" rfl
    (by decide)
    (ProviderResponse.mk 200 "ok" [("access_token", "T2"), ("refresh_token", "R2")])
    "T2" rfl
  exact ⟨h.1, by rw [h.2]; rfl⟩

/-- C9 counterexample: with a refresh token in session and a provider
response whose body lacks `access_token`, the `/refresh` handler renders
the failure template instead of returning a plain-text HTTP 400. -/
theorem refresh_failure_is_not_400 :
    Response.isPlainText400
      (refresh_token (Session.mk (some "A") (some "R"))
        (ProviderResponse.mk 400 "err" [("error", "bad")])).1 = false ∧
    (refresh_token (Session.mk (some "A") (some "R"))
        (ProviderResponse.mk 400 "err" [("error", "bad")])).1 =
      Response.renderRefreshResult ("刷新失败: " ++ pyStr [("error", "bad")]) false := by
  exact ⟨rfl, rfl⟩

/-- C9 amended: for the `/authorize` code exchange and for `/profile`, a
provider failure surfaces as a plain-text HTTP 400 carrying the raw
upstream body; for `/refresh`, a provider failure is rendered through the
refresh-result template with the raw provider error in the message, not as
an HTTP 400. -/
theorem provider_failures_surfaced (c : String) (hc : c ≠ "")
    (s₁ s₂ s₃ : Session) (r₁ r₂ r₃ : ProviderResponse)
    (h₁ : r₁.status_code ≠ 200)
    (a : String) (ha : s₂.access_token = some a) (hane : a ≠ "")
    (h₂ : r₂.status_code ≠ 200)
    (rt : String) (hrt : s₃.refresh_token = some rt) (hrtne : rt ≠ "")
    (h₃ : jsonGet r₃.json "access_token" = none) :
    (authorize (some c) r₁ s₁).1 =
      Response.plainText 400 ("获取令牌失败: " ++ r₁.text) ∧
    (profile s₂ r₂).1 =
      Response.plainText 400 ("获取用户信息失败: " ++ r₂.text) ∧
    (refresh_token s₃ r₃).1 =
      Response.renderRefreshResult ("刷新失败: " ++ pyStr r₃.json) false := by
  refine ⟨?_, ?_, ?_⟩
  · unfold authorize
    simp [hc, h₁]
  · unfold profile
    rw [ha]
    simp [hane, h₂]
  · unfold refresh_token
    rw [hrt]
    simp [hrtne, h₃]

/-- C9 amended witness. -/
theorem provider_failures_surfaced_witness :
    (authorize (some "abc") (ProviderResponse.mk 500 "boom" [])
        (Session.mk none none)).1 =
      Response.plainText 400 ("获取令牌失败: " ++ "boom") ∧
    (profile (Session.mk (some "A") none) (ProviderResponse.mk 401 "denied" [])).1 =
      Response.plainText 400 ("获取用户信息失败: " ++ "denied") ∧
    (refresh_token (Session.mk (some "A") (some "R"))
        (ProviderResponse.mk 400 "bad" [("error", "invalid_grant")])).1 =
      Response.renderRefreshResult
        ("刷新失败: " ++ pyStr [("error", "invalid_grant")]) false :=
  provider_failures_surfaced "abc" (by decide)
    (Session.mk none none) (Session.mk (some "A") none)
    (Session.mk (some "A") (some "R"))
    (ProviderResponse.mk 500 "boom" []) (ProviderResponse.mk 401 "denied" [])
    (ProviderResponse.mk 400 "bad" [("error", "invalid_grant")])
    (by decide) "A" rfl (by decide) (by decide) "R" rfl (by decide) rfl

/-- C10: for every `/refresh` request with a (nonempty) `refresh_token` in
session, the handler's outcome depends only on the provider's JSON body —
the status code and raw text are never inspected — so a body containing
`access_token` is treated as success regardless of status, overwriting
both session tokens, with the stored `refresh_token` becoming absent
exactly when the body omits it. -/
theorem refresh_ignores_status (s : Session) (rt : String)
    (hrt : s.refresh_token = some rt) (hne : rt ≠ "")
    (p₁ p₂ : ProviderResponse) (hjson : p₁.json = p₂.json) :
    refresh_token s p₁ = refresh_token s p₂ ∧
    (∀ tok, jsonGet p₁.json "access_token" = some tok →
      (refresh_token s p₁).2.1.access_token = some tok ∧
      (refresh_token s p₁).2.1.refresh_token = jsonGet p₁.json "refresh_token") := by
  constructor
  · unfold refresh_token
    rw [hjson]
  · intro tok htok
    unfold refresh_token
    rw [hrt]
    simp [hne, htok]

/-- C10 witness: a 500 response whose body holds `access_token` but no
`refresh_token` behaves exactly like a 200 one, and the session ends with
the new `access_token` and an absent `refresh_token`. -/
theorem refresh_ignores_status_witness :
    refresh_token (Session.mk (some "A") (some "R"))
        (ProviderResponse.mk 500 "server error" [("access_token", "T3")]) =
      refresh_token (Session.mk (some "A") (some "R"))
        (ProviderResponse.mk 200 "ok" [("access_token", "T3")]) ∧
    (refresh_token (Session.mk (some "A") (some "R"))
        (ProviderResponse.mk 500 "server error" [("access_token", "T3")])).2.1.access_token =
      some "T3" ∧
    (refresh_token (Session.mk (some "A") (some "R"))
        (ProviderResponse.mk 500 "server error" [("access_token", "T3")])).2.1.refresh_token =
      none := by
  have h := refresh_ignores_status (Session.mk (some "A") (some "R")) "R" rfl
    (by decide)
    (ProviderResponse.mk 500 "server error" [("access_token", "T3")])
    (ProviderResponse.mk 200 "ok" [("access_token", "T3")]) rfl
  have h2 := h.2 "T3" rfl
  exact ⟨h.1, h2.1, by rw [h2.2]; rfl⟩
